import Mathlib

/-!
Verification development for the pi-tv-remote CEC adapter
(`src/pi_tv_remote/cec_adapter.py`).

The adapter's data model and operations are embedded shallowly:

* Python dicts keyed by `int` with insertion order become association
  lists `List (Nat × List Nat)`; handlers are identified by `Nat` ids.
* The external `cec` transport module becomes a `Transport` record of
  capability flags and success oracles; every call the adapter makes to
  the transport is recorded in a `TransportCall` trace so that theorems
  can count and inspect transport interaction.
* A raised exception from a transport primitive is modelled by the
  corresponding success oracle returning `false`; `except`-handlers in
  the Python source become the corresponding `if`-branches here.
* Raw incoming command events (Python objects, dicts, ints, bytes) are
  embedded as the inductive `PyVal`; `hasattr(cmd, "opcode")` holds
  exactly for the structured-object constructor.
-/

/-- `CECConfig` (cec_adapter.py:224): validated, frozen configuration. -/
structure CECConfig where
  device_name : String
  physical_address : String
  port : Nat
  auto_power_on : Bool
  device_type : Nat
deriving DecidableEq, Repr

/-- The pydantic defaults of `CECConfig`. -/
def defaultCECConfig : CECConfig :=
  { device_name := "RaspberryPi"
    physical_address := "1.0.0.0"
    port := 1
    auto_power_on := true
    device_type := 1 }

/-- The mutable per-adapter state of `CECAdapter` (cec_adapter.py:237):
`initialized`, and the two insertion-ordered callback dicts
(`self.callbacks` for buttons, `self.command_callbacks` for opcodes),
each mapping an `int` key to an ordered handler list. -/
structure AdapterState where
  config : CECConfig
  initialized : Bool
  callbacks : List (Nat × List Nat)
  command_callbacks : List (Nat × List Nat)
deriving DecidableEq, Repr

/-- Lookup in an insertion-ordered `int`-keyed dict (`d[k]` / `k in d`). -/
def regLookup (r : List (Nat × List Nat)) (k : Nat) : Option (List Nat) :=
  match r with
  | [] => none
  | (k2, v) :: rest => if k2 = k then some v else regLookup rest k

/-- Store `d[k] = v`: update in place if the key exists, else append the
new entry at the end (Python dicts keep insertion order). -/
def regSet (r : List (Nat × List Nat)) (k : Nat) (v : List Nat) :
    List (Nat × List Nat) :=
  match r with
  | [] => [(k, v)]
  | (k2, v2) :: rest =>
      if k2 = k then (k2, v) :: rest else (k2, v2) :: regSet rest k v

/-- `CECAdapter.add_button_callback` (cec_adapter.py:318): create the
list on first registration, then append the handler at the end. -/
def add_button_callback (st : AdapterState) (button_code handler : Nat) :
    AdapterState :=
  let cur := (regLookup st.callbacks button_code).getD []
  { st with callbacks := regSet st.callbacks button_code (cur ++ [handler]) }

/-- `CECAdapter.remove_button_callback` (cec_adapter.py:324): if the key
is present and the handler occurs in its list, `list.remove` deletes the
first matching occurrence; otherwise no-op. -/
def remove_button_callback (st : AdapterState) (button_code handler : Nat) :
    AdapterState :=
  match regLookup st.callbacks button_code with
  | some l =>
      if handler ∈ l then
        { st with callbacks := regSet st.callbacks button_code (l.erase handler) }
      else st
  | none => st

/-- `CECAdapter.add_command_callback` (cec_adapter.py:329). -/
def add_command_callback (st : AdapterState) (opcode handler : Nat) :
    AdapterState :=
  let cur := (regLookup st.command_callbacks opcode).getD []
  { st with
      command_callbacks := regSet st.command_callbacks opcode (cur ++ [handler]) }

/-- `CECAdapter.remove_command_callback` (cec_adapter.py:341). -/
def remove_command_callback (st : AdapterState) (opcode handler : Nat) :
    AdapterState :=
  match regLookup st.command_callbacks opcode with
  | some l =>
      if handler ∈ l then
        { st with
            command_callbacks := regSet st.command_callbacks opcode (l.erase handler) }
      else st
  | none => st

/-- A handler-behaviour oracle: `beh h = true` means invoking handler
`h` raises an exception (which the dispatch loops catch and log). -/
abbrev HandlerBeh := Nat → Bool

/-- `CECAdapter.handle_keypress` (cec_adapter.py:355): exact-key lookup,
then every handler in the list is called in order inside a per-handler
`try/except`, so a raising handler is logged and the loop continues.
The result records each attempted handler with whether it raised. -/
def handle_keypress (st : AdapterState) (beh : HandlerBeh)
    (key_code duration : Nat) : List (Nat × Bool) :=
  let _ := duration
  match regLookup st.callbacks key_code with
  | some l => l.map (fun h => (h, beh h))
  | none => []

/-- A raw incoming event value as the Python layer can deliver it:
an `int`, a `bytes` value, a structured object exposing `.opcode`
(with optional `.parameters`), or a `dict`. `hasattr(v, "opcode")`
holds exactly for the `obj` constructor. -/
inductive PyVal where
  | int (n : Nat)
  | bytes (bs : List Nat)
  | obj (opcode : Nat) (parameters : Option (List Nat))
  | dict (entries : List (String × PyVal))

/-- `hasattr(cmd, "opcode")`: true only for structured objects. -/
def hasOpcodeAttr : PyVal → Bool
  | .obj _ _ => true
  | _ => false

/-- Outcome of `CECAdapter.handle_command` on one raw event:
either the dispatch loop ran (recording each attempted handler with
whether it raised; possibly zero handlers matched), or the event was
dropped with the "Unknown command format" warning, or the outer
`except` caught an error (an unhashable opcode value in the `in` test). -/
inductive HandleOutcome where
  | handled (invoked : List (Nat × Bool))
  | droppedUnknownFormat
  | errorCaught
deriving DecidableEq, Repr

/-- The dispatch loop of `handle_command` for an integer opcode:
`if opcode in self.command_callbacks: for callback in ...` with a
per-handler `try/except`. -/
def dispatchOpcodeInt (st : AdapterState) (beh : HandlerBeh) (k : Nat) :
    HandleOutcome :=
  match regLookup st.command_callbacks k with
  | some l => .handled (l.map (fun h => (h, beh h)))
  | none => .handled []

/-- The dispatch of `handle_command` for the opcode extracted from
`args[2]`, which may be any value: an `int` is looked up in the dict; a
`bytes` or object value is hashable but never a key of an `int`-keyed
dict, so zero handlers match; a `dict` value is unhashable, so the
membership test raises `TypeError`, caught by the outer `except`. -/
def dispatchOpcodeVal (st : AdapterState) (beh : HandlerBeh) (v : PyVal) :
    HandleOutcome :=
  match v with
  | .int k => dispatchOpcodeInt st beh k
  | .dict _ => .errorCaught
  | _ => .handled []

/-- `CECAdapter.handle_command` (cec_adapter.py:400): shape recognition
tried in order, first match wins —
(1) `hasattr(cmd, "opcode")`: use the object's opcode attribute;
(2) `len(args) >= 3`: legacy positional form, opcode is `args[2]`;
otherwise the event is dropped with a warning and no handler runs. -/
def handle_command (st : AdapterState) (beh : HandlerBeh)
    (cmd : PyVal) (args : List PyVal) : HandleOutcome :=
  match cmd with
  | .obj k _ => dispatchOpcodeInt st beh k
  | _ =>
      match args with
      | _ :: _ :: a2 :: _ => dispatchOpcodeVal st beh a2
      | _ => .droppedUnknownFormat

/-- The handlers a `handle_command` call actually invoked. -/
def invokedHandlers : HandleOutcome → List (Nat × Bool)
  | .handled l => l
  | .droppedUnknownFormat => []
  | .errorCaught => []

/-- The event classes a callback can be registered for
(`EVENT_KEYPRESS` / `EVENT_COMMAND`). -/
inductive EventClass where
  | keypress
  | command
deriving DecidableEq, Repr

/-- One call the adapter makes into the `cec` transport module. -/
inductive TransportCall where
  | initCall
  | transmit (destination : Nat) (opcode : Nat) (parameters : List Nat)
  | close
  | shutdown
  | setActiveSource
  | addCallback (ev : EventClass)
  | removeCallback (ev : EventClass)
deriving DecidableEq, Repr

/-- The external `cec` transport module: which optional primitives it
exposes (`hasattr` probes), whether each primitive succeeds (a `false`
oracle means the Python call raised), and its logical-address
constants. `transmit_ok n` is the success of the n-th transmit issued. -/
structure Transport where
  has_close : Bool
  has_shutdown : Bool
  has_add_callback : Bool
  has_remove_callback : Bool
  has_set_active_source : Bool
  init_ok : Bool
  transmit_ok : Nat → Bool
  set_active_source_ok : Bool
  close_ok : Bool
  shutdown_ok : Bool
  devTV : Nat
  devBroadcast : Nat

/-- `CECAdapter.register_event_handlers` (cec_adapter.py:438): guarded
by `hasattr(cec, "add_callback")`, registers the keypress handler then
the command handler. -/
def register_event_handlers (t : Transport) : List TransportCall :=
  if t.has_add_callback then
    [.addCallback .keypress, .addCallback .command]
  else []

/-- `CECAdapter.unregister_event_handlers` (cec_adapter.py:447):
guarded by `hasattr(cec, "remove_callback")`. -/
def unregister_event_handlers (t : Transport) : List TransportCall :=
  if t.has_remove_callback then
    [.removeCallback .keypress, .removeCallback .command]
  else []

/-- `CECAdapter.init` (cec_adapter.py:265): `cec.init()` inside a
`try`; on success register event handlers, set `initialized = True` and
return `True`; if the transport initialization raises, the `except`
logs and returns `False`, leaving the state untouched.
Returns (result, new state, transport-call trace). -/
def init (t : Transport) (st : AdapterState) :
    Bool × AdapterState × List TransportCall :=
  if t.init_ok then
    (true, { st with initialized := true },
      .initCall :: register_event_handlers t)
  else
    (false, st, [.initCall])

/-- `CECAdapter.cleanup` (cec_adapter.py:293), translated exactly as
written: an early return when not initialized; otherwise unregister the
event handlers, then inside a `try` call `cec.close()` if present, else
`cec.shutdown()` if present, else log a warning. In the source the
assignment `self.initialized = False` is indented inside the `except`
handler (cec_adapter.py:316), so it executes only when the shutdown
primitive raised; on the success paths `initialized` is left unchanged. -/
def cleanup (t : Transport) (st : AdapterState) :
    AdapterState × List TransportCall :=
  if st.initialized = false then (st, [])
  else
    let tr := unregister_event_handlers t
    if t.has_close then
      if t.close_ok then (st, tr ++ [.close])
      else ({ st with initialized := false }, tr ++ [.close])
    else if t.has_shutdown then
      if t.shutdown_ok then (st, tr ++ [.shutdown])
      else ({ st with initialized := false }, tr ++ [.shutdown])
    else (st, tr)

/-- CEC command opcodes used by the adapter (`CECCommand`,
cec_adapter.py:153, built-in default values). -/
def CECCommand.IMAGE_VIEW_ON : Nat := 0x04

def CECCommand.STANDBY : Nat := 0x36

def CECCommand.ACTIVE_SOURCE : Nat := 0x82

def CECCommand.GIVE_DEVICE_POWER_STATUS : Nat := 0x8F

def CECCommand.GIVE_DEVICE_VENDOR_ID : Nat := 0x8C

def CECCommand.USER_CONTROL_PRESSED : Nat := 0x44

def CECCommand.USER_CONTROL_RELEASED : Nat := 0x45

/-- `CECAdapter.send_command` (cec_adapter.py:456): fail fast with
`False` and no transport call when not initialized; otherwise call
`cec.transmit(destination, opcode, parameters)` inside a `try`,
returning `True` on success and `False` when transmit raises. `n` is
the number of transmits issued so far (indexing the success oracle);
`timeout` is accepted and never used, as in the source. -/
def send_command (t : Transport) (st : AdapterState) (n : Nat)
    (opcode : Nat) (destination : Nat) (parameters : List Nat)
    (timeout : ℚ) : Bool × List TransportCall :=
  let _ := timeout
  if st.initialized = false then (false, [])
  else (t.transmit_ok n, [.transmit destination opcode parameters])

/-- `CECAdapter.send_remote_button` (cec_adapter.py:525): fail fast
when not initialized; for a press, send `USER_CONTROL_PRESSED` to the
TV with the 1-byte parameter `[button_code]`; if that send failed,
return `False` without a release; if `hold_time > 0`, sleep and then
recursively send the release (`pressed=False`, default hold time 0.2);
a release sends `USER_CONTROL_RELEASED` to the TV with no parameters. -/
def send_remote_button (t : Transport) (st : AdapterState) (n : Nat)
    (button_code : Nat) (pressed : Bool) (hold_time : ℚ) :
    Bool × List TransportCall :=
  if st.initialized = false then (false, [])
  else
    match pressed with
    | true =>
        let pr := send_command t st n CECCommand.USER_CONTROL_PRESSED
          t.devTV [button_code] 2
        if pr.1 = false then (false, pr.2)
        else if 0 < hold_time then
          let rel := send_remote_button t st (n + pr.2.length) button_code
            false (1 / 5)
          (rel.1, pr.2 ++ rel.2)
        else (true, pr.2)
    | false =>
        send_command t st n CECCommand.USER_CONTROL_RELEASED t.devTV [] 2
termination_by pressed.toNat
decreasing_by decide

/-- The numeric value of one hex digit, `none` for a non-hex character
(`bytes.fromhex` raises `ValueError` on such input). -/
def hexDigitVal (c : Char) : Option Nat :=
  if '0' ≤ c ∧ c ≤ '9' then some (c.toNat - '0'.toNat)
  else if 'a' ≤ c ∧ c ≤ 'f' then some (c.toNat - 'a'.toNat + 10)
  else if 'A' ≤ c ∧ c ≤ 'F' then some (c.toNat - 'A'.toNat + 10)
  else none

/-- `bytes.fromhex` on a list of characters: consecutive pairs of hex
digits become bytes; an odd length or a non-hex digit fails. -/
def hexPairs : List Char → Option (List Nat)
  | [] => some []
  | [_] => none
  | c1 :: c2 :: rest =>
      match hexDigitVal c1, hexDigitVal c2, hexPairs rest with
      | some hi, some lo, some bs => some ((16 * hi + lo) :: bs)
      | _, _, _ => none

/-- `bytes.fromhex(self.config.physical_address.replace(".", ""))`
(cec_adapter.py:515): strip every dot, then decode hex pairs. -/
def physAddrBytes (s : String) : Option (List Nat) :=
  hexPairs (s.data.filter (fun c => c ≠ '.'))

/-- `CECAdapter.set_active_source` (cec_adapter.py:503): inside a
`try`, first use `cec.set_active_source()` when the transport exposes
it, returning `True` if it reports success; otherwise fall back to
sending `ACTIVE_SOURCE` to the broadcast address with the two bytes
decoded from the configured dotted physical address; a `ValueError`
from the hex decode is caught by the `except`, returning `False`. -/
def set_active_source (t : Transport) (st : AdapterState) (n : Nat) :
    Bool × List TransportCall :=
  if t.has_set_active_source then
    if t.set_active_source_ok then (true, [.setActiveSource])
    else
      match physAddrBytes st.config.physical_address with
      | some bs =>
          let r := send_command t st n CECCommand.ACTIVE_SOURCE
            t.devBroadcast bs 2
          (r.1, .setActiveSource :: r.2)
      | none => (false, [.setActiveSource])
  else
    match physAddrBytes st.config.physical_address with
    | some bs => send_command t st n CECCommand.ACTIVE_SOURCE t.devBroadcast bs 2
    | none => (false, [])

/-- A behaviour oracle under which no handler raises. -/
def behNone : HandlerBeh := fun _ => false

/-- A behaviour oracle under which exactly handler 11 raises. -/
def behFault : HandlerBeh := fun h => h == 11

/-- A representative transport: exposes `close`, callback
registration/removal, no `set_active_source` convenience; every
primitive succeeds. -/
def tDefault : Transport :=
  { has_close := true
    has_shutdown := false
    has_add_callback := true
    has_remove_callback := true
    has_set_active_source := false
    init_ok := true
    transmit_ok := fun _ => true
    set_active_source_ok := false
    close_ok := true
    shutdown_ok := true
    devTV := 0
    devBroadcast := 15 }

/-- `tDefault` with a faulting initialization primitive. -/
def tFailInit : Transport := { tDefault with init_ok := false }

/-- `tDefault` whose every transmit faults. -/
def tFailTransmit : Transport := { tDefault with transmit_ok := fun _ => false }

/-- A freshly constructed adapter: not initialized, empty registries. -/
def stFresh : AdapterState :=
  { config := defaultCECConfig
    initialized := false
    callbacks := []
    command_callbacks := [] }

/-- An adapter after a successful `init()`. -/
def stReady : AdapterState := { stFresh with initialized := true }

/-- `stReady` with one command handler (id 1) registered for opcode 68. -/
def st68 : AdapterState := { stReady with command_callbacks := [(68, [1])] }

/-- `stReady` with button handlers 5, 7, 9 registered for code 68. -/
def stBtn : AdapterState := { stReady with callbacks := [(68, [5, 7, 9])] }

/-- `stReady` with button handlers 10, 11, 12 registered for code 1. -/
def st3 : AdapterState := { stReady with callbacks := [(1, [10, 11, 12])] }

theorem regLookup_regSet (r : List (Nat × List Nat)) (k : Nat) (v : List Nat) :
    regLookup (regSet r k v) k = some v := by
  induction r with
  | nil => simp [regSet, regLookup]
  | cons p rest ih =>
      obtain ⟨k2, v2⟩ := p
      by_cases hk : k2 = k
      · simp [regSet, regLookup, hk]
      · simp [regSet, regLookup, hk, ih]

theorem physAddrBytes_default : physAddrBytes "1.0.0.0" = some [16, 0] := by
  decide

/-- Claim C1. The claim states that whenever `cleanup()` runs on an
initialized adapter, `initialized` is `false` afterwards regardless of
whether the shutdown primitive succeeded. The code violates this:
`self.initialized = False` sits inside the `except` handler
(cec_adapter.py:316), so with a transport whose `close()` succeeds,
`cleanup()` leaves `initialized = true`. -/
theorem C1_cleanup_close_ok_leaves_flag_true :
    ((cleanup tDefault stReady).1).initialized = true ∧
    (cleanup tDefault ({ stReady with initialized := false })).1.initialized = false := by
  decide

/-- Claim C10. First part of the claim (cleanup on an uninitialized
adapter is a complete no-op: same state, zero transport calls) holds;
but because a successful cleanup never clears `initialized`
(cec_adapter.py:316), a second `cleanup()` call after a first fully
successful one repeats the transport interaction — the claimed
"repeated cleanup performs no transport interaction" fails. -/
theorem C10_second_cleanup_repeats_transport_calls :
    cleanup tDefault stFresh = (stFresh, []) ∧
    (cleanup tDefault ((cleanup tDefault stReady).1)).2 =
      [.removeCallback .keypress, .removeCallback .command, .close] := by
  decide

/-- Claim C3. `send_command` on a non-initialized adapter returns
`False` and performs zero transport calls, for every opcode,
destination, parameter list and timeout. -/
theorem C3_send_command_uninitialized_no_transport
    (t : Transport) (st : AdapterState) (n opcode destination : Nat)
    (parameters : List Nat) (timeout : ℚ)
    (hinit : st.initialized = false) :
    send_command t st n opcode destination parameters timeout = (false, []) := by
  simp [send_command, hinit]

theorem C3_witness :
    stFresh.initialized = false ∧
    send_command tDefault stFresh 0 CECCommand.IMAGE_VIEW_ON 0 [] 2 = (false, []) :=
  ⟨rfl, C3_send_command_uninitialized_no_transport tDefault stFresh 0
    CECCommand.IMAGE_VIEW_ON 0 [] 2 rfl⟩

/-- Claim C8. When the transport initialization primitive faults,
`init()` returns `False` and the adapter state is unchanged, so an
uninitialized adapter stays uninitialized. -/
theorem C8_init_failure_keeps_uninitialized
    (t : Transport) (st : AdapterState)
    (hfail : t.init_ok = false) (hinit : st.initialized = false) :
    (init t st).1 = false ∧ (init t st).2.1 = st ∧
    ((init t st).2.1).initialized = false := by
  simp [init, hfail, hinit]

theorem C8_witness :
    tFailInit.init_ok = false ∧ stFresh.initialized = false ∧
    (init tFailInit stFresh).1 = false ∧
    ((init tFailInit stFresh).2.1).initialized = false := by
  refine ⟨rfl, rfl, ?_, ?_⟩
  · exact (C8_init_failure_keeps_uninitialized tFailInit stFresh rfl rfl).1
  · exact (C8_init_failure_keeps_uninitialized tFailInit stFresh rfl rfl).2.2

/-- Claim C2, counterexample. The claim asserts four recognized raw
event shapes; the code recognizes only two (cec_adapter.py:415-425).
With handler 1 registered for opcode 68, a keyed mapping carrying an
`opcode` entry — shape (2) of the claim — is dropped as unknown format
(a dict has no `opcode` attribute and there are no positional args),
and so is shape (3), a sentinel discriminator followed by that mapping
(only one positional arg, fewer than the required three). -/
theorem C2_counterexample :
    regLookup st68.command_callbacks 68 = some [1] ∧
    handle_command st68 behNone (.dict [("opcode", .int 68)]) [] =
      .droppedUnknownFormat ∧
    handle_command st68 behNone (.int 4) [.dict [("opcode", .int 68)]] =
      .droppedUnknownFormat := by
  refine ⟨rfl, rfl, rfl⟩

/-- Claim C2 as amended: the normalizer recognizes two raw event
shapes, tried in order with first match winning — (1) a structured
value with an opcode attribute, (2) a legacy positional form with at
least three positional arguments whose third entry is the opcode — and
for each of these, an opcode registered in the command registry gets
its handlers invoked in order. -/
theorem C2_two_shapes_dispatch
    (st : AdapterState) (beh : HandlerBeh) (k : Nat) (l : List Nat)
    (hreg : regLookup st.command_callbacks k = some l) :
    (∀ ps args, handle_command st beh (.obj k ps) args =
      .handled (l.map (fun h => (h, beh h)))) ∧
    (∀ cmd a0 a1 rest, hasOpcodeAttr cmd = false →
      handle_command st beh cmd (a0 :: a1 :: PyVal.int k :: rest) =
        .handled (l.map (fun h => (h, beh h)))) := by
  constructor
  · intro ps args
    simp [handle_command, dispatchOpcodeInt, hreg]
  · intro cmd a0 a1 rest hattr
    cases cmd with
    | obj _ _ => simp [hasOpcodeAttr] at hattr
    | int n => simp [handle_command, dispatchOpcodeVal, dispatchOpcodeInt, hreg]
    | bytes bs => simp [handle_command, dispatchOpcodeVal, dispatchOpcodeInt, hreg]
    | dict es => simp [handle_command, dispatchOpcodeVal, dispatchOpcodeInt, hreg]

theorem C2_witness :
    handle_command st68 behNone (.obj 68 none) [] = .handled [(1, false)] ∧
    handle_command st68 behNone (.int 4)
      [.int 3, .int 0, .int 68, .bytes [2]] = .handled [(1, false)] := by
  have h := C2_two_shapes_dispatch st68 behNone 68 [1] rfl
  exact ⟨by simpa [behNone] using h.1 none [],
    by simpa [behNone] using h.2 (.int 4) (.int 3) (.int 0) [.bytes [2]] rfl⟩

/-- Claim C5. Registry semantics: `register` appends at the end of the
key's list (creating it on first registration); a handler may occur
several times under one key; `unregister` removes exactly the first
matching occurrence and is a no-op when the key or the handler is
absent; registering then unregistering a handler on a previously
unregistered key leaves dispatch for that key a no-op. Stated for the
button registry, with the append/erase clauses repeated for the
(separately implemented) command registry. -/
theorem C5_registry_semantics
    (st : AdapterState) (k h : Nat) (beh : HandlerBeh) (d : Nat) :
    regLookup (add_button_callback st k h).callbacks k
      = some ((regLookup st.callbacks k).getD [] ++ [h]) ∧
    regLookup (add_button_callback (add_button_callback st k h) k h).callbacks k
      = some ((regLookup st.callbacks k).getD [] ++ [h, h]) ∧
    (∀ l1 l2, regLookup st.callbacks k = some (l1 ++ h :: l2) → h ∉ l1 →
      regLookup (remove_button_callback st k h).callbacks k = some (l1 ++ l2)) ∧
    (regLookup st.callbacks k = none → remove_button_callback st k h = st) ∧
    (∀ l, regLookup st.callbacks k = some l → h ∉ l →
      remove_button_callback st k h = st) ∧
    (regLookup st.callbacks k = none →
      handle_keypress (remove_button_callback (add_button_callback st k h) k h)
        beh k d = []) ∧
    regLookup (add_command_callback st k h).command_callbacks k
      = some ((regLookup st.command_callbacks k).getD [] ++ [h]) ∧
    (∀ l1 l2, regLookup st.command_callbacks k = some (l1 ++ h :: l2) → h ∉ l1 →
      regLookup (remove_command_callback st k h).command_callbacks k
        = some (l1 ++ l2)) := by
  refine ⟨?_, ?_, ?_, ?_, ?_, ?_, ?_, ?_⟩
  · simp [add_button_callback, regLookup_regSet]
  · simp [add_button_callback, regLookup_regSet]
  · intro l1 l2 hl hmem
    have hin : h ∈ l1 ++ h :: l2 := by simp
    simp only [remove_button_callback, hl, if_pos hin]
    rw [List.erase_append_right _ hmem, List.erase_cons_head,
      regLookup_regSet]
  · intro hl
    simp [remove_button_callback, hl]
  · intro l hl hmem
    simp [remove_button_callback, hl, hmem]
  · intro hl
    have hadd : regLookup (add_button_callback st k h).callbacks k = some [h] := by
      simp [add_button_callback, regLookup_regSet, hl]
    have hin : h ∈ [h] := by simp
    simp only [remove_button_callback, hadd, if_pos hin]
    simp [handle_keypress, add_button_callback, regLookup_regSet]
  · simp [add_command_callback, regLookup_regSet]
  · intro l1 l2 hl hmem
    have hin : h ∈ l1 ++ h :: l2 := by simp
    simp only [remove_command_callback, hl, if_pos hin]
    rw [List.erase_append_right _ hmem, List.erase_cons_head,
      regLookup_regSet]

theorem C5_witness :
    regLookup (remove_button_callback stBtn 68 7).callbacks 68 = some [5, 9] ∧
    handle_keypress (remove_button_callback (add_button_callback stReady 1 7) 1 7)
      behNone 1 0 = [] := by
  have h := C5_registry_semantics stBtn 68 7 behNone 0
  have h2 := C5_registry_semantics stReady 1 7 behNone 0
  exact ⟨h.2.2.1 [5] [9] rfl (by decide), h2.2.2.2.2.2.1 rfl⟩

/-- Claim C6. Dispatching one key event invokes every handler of the
key's list in registration order; a handler that raises is caught and
the remaining handlers still run; in particular with three handlers
where the second raises, the first and third are still invoked. -/
theorem C6_dispatch_fault_isolation
    (st : AdapterState) (beh : HandlerBeh) (k d : Nat) (l : List Nat)
    (hreg : regLookup st.callbacks k = some l) :
    handle_keypress st beh k d = l.map (fun h => (h, beh h)) ∧
    (∀ h1 h2 h3, l = [h1, h2, h3] → beh h2 = true →
      handle_keypress st beh k d = [(h1, beh h1), (h2, true), (h3, beh h3)]) := by
  constructor
  · simp [handle_keypress, hreg]
  · intro h1 h2 h3 hl hb
    subst hl
    simp [handle_keypress, hreg, hb]

theorem C6_witness :
    behFault 11 = true ∧
    handle_keypress st3 behFault 1 0 = [(10, false), (11, true), (12, false)] := by
  have h := (C6_dispatch_fault_isolation st3 behFault 1 0 [10, 11, 12] rfl).2
    10 11 12 rfl rfl
  exact ⟨rfl, by simpa [behFault] using h⟩

/-- Claim C7. With no transport `set_active_source` convenience
primitive, `set_active_source()` on an initialized adapter transmits
one `ACTIVE_SOURCE` command to the broadcast address whose parameters
are the two bytes decoded from the configured dotted physical address;
for "1.0.0.0" the parameters are `[0x10, 0x00]`. -/
theorem C7_set_active_source_fallback
    (t : Transport) (st : AdapterState) (n : Nat)
    (hconv : t.has_set_active_source = false)
    (hinit : st.initialized = true)
    (haddr : st.config.physical_address = "1.0.0.0") :
    set_active_source t st n =
      (t.transmit_ok n,
        [.transmit t.devBroadcast CECCommand.ACTIVE_SOURCE [0x10, 0x00]]) := by
  simp [set_active_source, hconv, haddr, physAddrBytes_default,
    send_command, hinit]

theorem C7_witness :
    set_active_source tDefault stReady 0 =
      (tDefault.transmit_ok 0,
        [.transmit tDefault.devBroadcast CECCommand.ACTIVE_SOURCE [16, 0]]) :=
  C7_set_active_source_fallback tDefault stReady 0 rfl rfl rfl

/-- Claim C9. A raw command event matching neither recognized shape —
no opcode attribute on the command value and fewer than three
positional arguments — is dropped with the unknown-format warning and
invokes no registered command handler. (That `handle_command` never
raises to its caller is reflected in the embedding by its totality:
every input yields a `HandleOutcome`, the outer `except` path
included.) -/
theorem C9_unknown_format_dropped
    (st : AdapterState) (beh : HandlerBeh) (cmd : PyVal) (args : List PyVal)
    (hattr : hasOpcodeAttr cmd = false) (hlen : args.length < 3) :
    handle_command st beh cmd args = .droppedUnknownFormat ∧
    invokedHandlers (handle_command st beh cmd args) = [] := by
  have hdrop : handle_command st beh cmd args = .droppedUnknownFormat := by
    cases cmd with
    | obj k ps => simp [hasOpcodeAttr] at hattr
    | int n =>
        rcases args with (_ | ⟨a0, (_ | ⟨a1, (_ | ⟨a2, rest⟩)⟩)⟩)
        · rfl
        · rfl
        · rfl
        · exfalso; simp only [List.length_cons] at hlen; omega
    | bytes bs =>
        rcases args with (_ | ⟨a0, (_ | ⟨a1, (_ | ⟨a2, rest⟩)⟩)⟩)
        · rfl
        · rfl
        · rfl
        · exfalso; simp only [List.length_cons] at hlen; omega
    | dict es =>
        rcases args with (_ | ⟨a0, (_ | ⟨a1, (_ | ⟨a2, rest⟩)⟩)⟩)
        · rfl
        · rfl
        · rfl
        · exfalso; simp only [List.length_cons] at hlen; omega
  exact ⟨hdrop, by rw [hdrop]; rfl⟩

theorem C9_witness :
    hasOpcodeAttr (.dict [("opcode", .int 68)]) = false ∧
    handle_command st68 behNone (.dict [("opcode", .int 68)]) [.int 3] =
      .droppedUnknownFormat ∧
    invokedHandlers
      (handle_command st68 behNone (.dict [("opcode", .int 68)]) [.int 3]) = [] := by
  have h := C9_unknown_format_dropped st68 behNone
    (.dict [("opcode", .int 68)]) [.int 3] rfl (by decide)
  exact ⟨rfl, h.1, h.2⟩

/-- The release half of `send_remote_button` on an initialized
adapter: one `USER_CONTROL_RELEASED` transmit to the TV with no
parameters. -/
theorem send_remote_button_release_eq
    (t : Transport) (st : AdapterState) (n button_code : Nat) (hold_time : ℚ)
    (hinit : st.initialized = true) :
    send_remote_button t st n button_code false hold_time =
      (t.transmit_ok n,
        [.transmit t.devTV CECCommand.USER_CONTROL_RELEASED []]) := by
  rw [send_remote_button.eq_def]
  simp [send_command, hinit]

/-- Claim C4. On an initialized adapter, a press with positive hold
time whose first transmit succeeds issues exactly two transport calls:
`USER_CONTROL_PRESSED` to the TV with the one-byte parameter
`[button_code]`, then `USER_CONTROL_RELEASED` to the TV with no
parameters (the overall result being that of the release transmit);
when the first transmit faults, exactly one transport call occurs and
the release is never attempted. The hypothesis `button_code < 256`
mirrors the range `bytes([button_code])` accepts. -/
theorem C4_send_remote_button_press_then_release
    (t : Transport) (st : AdapterState) (button_code : Nat) (hold_time : ℚ)
    (hb : button_code < 256) (hinit : st.initialized = true)
    (hht : 0 < hold_time) :
    (t.transmit_ok 0 = true →
      send_remote_button t st 0 button_code true hold_time =
        (t.transmit_ok 1,
          [.transmit t.devTV CECCommand.USER_CONTROL_PRESSED [button_code],
           .transmit t.devTV CECCommand.USER_CONTROL_RELEASED []])) ∧
    (t.transmit_ok 0 = false →
      send_remote_button t st 0 button_code true hold_time =
        (false, [.transmit t.devTV CECCommand.USER_CONTROL_PRESSED
          [button_code]])) := by
  constructor
  · intro hok
    have hrel := send_remote_button_release_eq t st 1 button_code (1 / 5) hinit
    simp only [one_div] at hrel
    rw [send_remote_button.eq_def]
    simp [send_command, hinit, hok, hht, hrel]
  · intro hfail
    rw [send_remote_button.eq_def]
    simp [send_command, hinit, hfail]

theorem C4_witness :
    (0 : ℚ) < 1 ∧ (1 : Nat) < 256 ∧
    send_remote_button tDefault stReady 0 1 true 1 =
      (tDefault.transmit_ok 1,
        [.transmit tDefault.devTV CECCommand.USER_CONTROL_PRESSED [1],
         .transmit tDefault.devTV CECCommand.USER_CONTROL_RELEASED []]) ∧
    send_remote_button tFailTransmit stReady 0 1 true 1 =
      (false, [.transmit tFailTransmit.devTV CECCommand.USER_CONTROL_PRESSED
        [1]]) := by
  refine ⟨by norm_num, by decide, ?_, ?_⟩
  · exact (C4_send_remote_button_press_then_release tDefault stReady 1 1
      (by decide) rfl (by norm_num)).1 rfl
  · exact (C4_send_remote_button_press_then_release tFailTransmit stReady 1 1
      (by decide) rfl (by norm_num)).2 rfl
